import Mathlib

/-!
Verification of the janitor run-lifecycle and publication control plane.

The definitions below are a shallow embedding of the Python source:

* `src/janitor/publish.py` — blurb handling, the maintainer rate limiter,
  and the per-run decision logic of the `publish_pending_new` driver loop.
* `src/janitor/vcs.py` — the local VCS store's branch-open operation.
* `src/janitor/worker.py` — the recipe-failure handling in
  `process_package`, the exception dispatch in `main`, and the watchdog
  keepalive loop.

Text is modelled as `List Char`; Python exceptions are modelled as
`Except` error values.
-/

namespace Janitor

/-! ## String utilities (Python `str.index`, `str.strip`, `in`) -/

/-- Code points for which Python's `str.isspace` (and hence `str.strip`)
treats a character as whitespace. -/
def pySpaceChars : List Nat :=
  [0x20, 0x09, 0x0A, 0x0D, 0x0B, 0x0C, 0x1C, 0x1D, 0x1E, 0x1F,
   0x85, 0xA0, 0x1680, 0x2028, 0x2029, 0x202F, 0x205F, 0x3000]

/-- Whether Python's `str.strip` strips this character. -/
def isPySpace (c : Char) : Bool :=
  pySpaceChars.contains c.toNat ||
    (decide (0x2000 ≤ c.toNat) && decide (c.toNat ≤ 0x200A))

/-- Leading-whitespace removal, the first half of Python's `str.strip`. -/
def stripLeading (s : List Char) : List Char :=
  s.dropWhile isPySpace

/-- Trailing-whitespace removal, the second half of Python's `str.strip`. -/
def stripTrailing (s : List Char) : List Char :=
  (s.reverse.dropWhile isPySpace).reverse

/-- Python's `str.strip()` with no arguments. -/
def pyStrip (s : List Char) : List Char :=
  stripTrailing (stripLeading s)

/-- Python's `str.index`: the first position at which `pat` occurs in the
text, or `none` where Python raises `ValueError`. -/
def strIndex (pat : List Char) : List Char → Option Nat
  | [] => if pat.isEmpty then some 0 else none
  | c :: rest =>
    if pat.isPrefixOf (c :: rest) then some 0
    else
      match strIndex pat rest with
      | some i => some (i + 1)
      | none => none

/-- Python's `in` operator on strings. -/
def containsSub (pat hay : List Char) : Bool :=
  (strIndex pat hay).isSome

theorem isPrefixOf_append_self (l r : List Char) :
    l.isPrefixOf (l ++ r) = true := by
  induction l with
  | nil => simp [List.isPrefixOf]
  | cons a t ih => simp [List.isPrefixOf, ih]

theorem drop_len_append (l r : List Char) : (l ++ r).drop l.length = r := by
  induction l with
  | nil => rfl
  | cons a t ih => simp [ih]

theorem take_len_append (l r : List Char) : (l ++ r).take l.length = l := by
  induction l with
  | nil => rfl
  | cons a t ih => simp [ih]

/-- `strIndex` returns the first matching position: if nothing matches
before `k` and `k` matches, the result is `k`. -/
theorem strIndex_eq_some (pat hay : List Char) (k : Nat)
    (hbefore : ∀ j, j < k → pat.isPrefixOf (hay.drop j) = false)
    (hat : pat.isPrefixOf (hay.drop k) = true) :
    strIndex pat hay = some k := by
  induction hay generalizing k with
  | nil =>
    cases pat with
    | nil =>
      cases k with
      | zero => rfl
      | succ k0 =>
        have h0 := hbefore 0 (Nat.succ_pos _)
        simp [List.isPrefixOf] at h0
    | cons p ps => simp [List.isPrefixOf] at hat
  | cons c rest ih =>
    cases k with
    | zero =>
      simp only [List.drop] at hat
      simp [strIndex, hat]
    | succ k0 =>
      have h0 := hbefore 0 (Nat.succ_pos _)
      simp only [List.drop] at h0
      have hrec : strIndex pat rest = some k0 := by
        apply ih
        · intro j hj
          have := hbefore (j + 1) (by omega)
          simpa using this
        · simpa using hat
      simp [strIndex, h0, hrec]

theorem dropWhile_append_of_empty (p : Char → Bool) (l₁ l₂ : List Char)
    (h : l₁.dropWhile p = []) :
    (l₁ ++ l₂).dropWhile p = l₂.dropWhile p := by
  induction l₁ with
  | nil => rfl
  | cons a t ih =>
    by_cases hp : p a
    · simp only [List.dropWhile, hp] at h ⊢
      exact ih h
    · simp [List.dropWhile, hp] at h

theorem dropWhile_append_of_ne (p : Char → Bool) (l₁ l₂ : List Char)
    (h : l₁.dropWhile p ≠ []) :
    (l₁ ++ l₂).dropWhile p = l₁.dropWhile p ++ l₂ := by
  induction l₁ with
  | nil => simp at h
  | cons a t ih =>
    by_cases hp : p a
    · simp only [List.dropWhile, hp] at h ⊢
      exact ih h
    · simp [List.dropWhile, hp]

theorem stripTrailing_append_newline (x : List Char) :
    stripTrailing (x ++ ['\n']) = stripTrailing x := by
  have hsp : isPySpace '\n' = true := by decide
  simp [stripTrailing, List.dropWhile, hsp]

theorem pyStrip_append_newline (x : List Char) :
    pyStrip (x ++ ['\n']) = pyStrip x := by
  unfold pyStrip stripLeading
  by_cases h : x.dropWhile isPySpace = []
  · rw [dropWhile_append_of_empty _ _ _ h, h]
    have : List.dropWhile isPySpace ['\n'] = [] := by decide
    rw [this]
  · rw [dropWhile_append_of_ne _ _ _ h, stripTrailing_append_newline]

/-! ## publish.py — blurbs -/

/-- `JANITOR_BLURB` from `publish.py`, with `%(suite)s` substituted. -/
def JANITOR_BLURB (suite : List Char) : List Char :=
  ("\nThis merge proposal was created automatically by the Janitor bot\n" ++
   "(https://janitor.debian.net/").toList ++ suite ++
  (").\n\nYou can follow up to this merge proposal as you normally would.\n").toList

/-- `OLD_JANITOR_BLURB` from `publish.py`. -/
def OLD_JANITOR_BLURB : List Char :=
  ("\nThis merge proposal was created automatically by the Janitor bot\n" ++
   "(https://janitor.debian.net/).\n\n" ++
   "You can follow up to this merge proposal as you normally would.\n").toList

/-- `LOG_BLURB` from `publish.py`, with `%(package)s` and `%(log_id)s`
substituted. -/
def LOG_BLURB (pkg log_id : List Char) : List Char :=
  ("\nBuild and test logs for this branch can be found at\n" ++
   "https://janitor.debian.net/cupboard/pkg/").toList ++ pkg ++
  "/".toList ++ log_id ++ "/.\n".toList

/-- `add_janitor_blurb(text, pkg, log_id, suite)` from `publish.py`. -/
def add_janitor_blurb (text pkg log_id suite : List Char) : List Char :=
  text ++ "\n".toList ++ JANITOR_BLURB suite ++ LOG_BLURB pkg log_id

/-- `strip_janitor_blurb(text, suite)` from `publish.py`: cut the text at the
first occurrence of the suite blurb (else of the old blurb) and strip the
remainder; `none` models the uncaught `ValueError` when neither occurs. -/
def strip_janitor_blurb (text suite : List Char) : Option (List Char) :=
  match strIndex (JANITOR_BLURB suite) text with
  | some i => some (pyStrip (text.take i))
  | none =>
    match strIndex OLD_JANITOR_BLURB text with
    | some i => some (pyStrip (text.take i))
    | none => none

/-! ## publish.py — maintainer rate limiter -/

/-- Python `dict.get(k, 0)` on the per-maintainer count map. -/
def lookup0 : List (String × Nat) → String → Nat
  | [], _ => 0
  | (a, n) :: rest, k => if a = k then n else lookup0 rest k

/-- Python `dict.setdefault(k, 0)` followed by `dict[k] += 1`. -/
def bump : List (String × Nat) → String → List (String × Nat)
  | [], k => [(k, 1)]
  | (a, n) :: rest, k =>
    if a = k then (a, n + 1) :: rest else (a, n) :: bump rest k

/-- State of `MaintainerRateLimiter` from `publish.py`: the cap passed to the
constructor and the per-maintainer map, `none` until
`set_open_mps_per_maintainer` is called. -/
structure MaintainerRateLimiter where
  max_mps_per_maintainer : Option Nat
  open_mps_per_maintainer : Option (List (String × Nat))
deriving DecidableEq

namespace MaintainerRateLimiter

/-- `MaintainerRateLimiter.set_open_mps_per_maintainer`. -/
def set_open_mps_per_maintainer (rl : MaintainerRateLimiter)
    (m : List (String × Nat)) : MaintainerRateLimiter :=
  { rl with open_mps_per_maintainer := some m }

/-- `MaintainerRateLimiter.allowed`: `True` when the cap is falsy (absent or
zero), `False` while the map is uninitialised, else a comparison of the
current count against the cap. -/
def allowed (rl : MaintainerRateLimiter) (maintainer_email : String) : Bool :=
  match rl.max_mps_per_maintainer with
  | none => true
  | some cap =>
    if cap = 0 then true
    else
      match rl.open_mps_per_maintainer with
      | none => false
      | some m => decide (lookup0 m maintainer_email < cap)

/-- `MaintainerRateLimiter.inc`: a no-op while the map is uninitialised,
else bump the maintainer's count. -/
def inc (rl : MaintainerRateLimiter) (maintainer_email : String) :
    MaintainerRateLimiter :=
  match rl.open_mps_per_maintainer with
  | none => rl
  | some m =>
    { rl with open_mps_per_maintainer := some (bump m maintainer_email) }

end MaintainerRateLimiter

/-! ## publish.py — per-run decision of the publish_pending_new driver loop -/

/-- Publication modes of `publish.py`. -/
inductive PMode where
  | skipMode
  | buildOnly
  | push
  | pushDerived
  | propose
  | attemptPush
deriving DecidableEq

/-- What `publish_pending_new` does with one publish-ready run: skip it (the
`continue` statements: no `publish_one` hoster call, no `store_publish`
Publication row), or call `publish_one` with the effective mode (followed by
`store_publish`). -/
inductive PublishDecision where
  | skipRun
  | publishWith (mode : PMode)
deriving DecidableEq

/-- The collaborative-maintenance namespace checked by
`publish_pending_new`. -/
def SALSA_DEBIAN : List Char := "salsa.debian.org/debian/".toList

/-- The per-run control flow of `publish_pending_new` in `publish.py`,
from the `apply_policy` result to the `publish_one` call: skip build-only
and skip modes, skip already-published runs, downgrade when rate-limited
(`propose` to `build-only`, `attempt-push` to `push`), then apply the
collab-maint override, then skip again if the mode became build-only. -/
def publish_pending_decision (mode : PMode) (already_published : Bool)
    (rl_allowed : Bool) (main_branch_url : List Char) : PublishDecision :=
  if mode = .buildOnly ∨ mode = .skipMode then .skipRun
  else if already_published then .skipRun
  else
    let m1 :=
      if rl_allowed = false ∧ (mode = .propose ∨ mode = .attemptPush) then
        if mode = .propose then PMode.buildOnly
        else if mode = .attemptPush then PMode.push
        else mode
      else mode
    let m2 :=
      if m1 = .attemptPush ∧ containsSub SALSA_DEBIAN main_branch_url then
        PMode.propose
      else m1
    if m2 = .buildOnly ∨ m2 = .skipMode then .skipRun
    else .publishWith m2

/-! ## publish.py — proposal description handling inside `publish` -/

/-- Python exceptions that can escape the publication primitive or the
description callbacks inside `publish`. -/
inductive PubExc where
  | valueError
  | noSuchProject
  | permissionDenied
  | mergeProposalExists
deriving DecidableEq

/-- How an exception leaves `publish`: converted to a coded
`PublishFailure`, or propagated uncoded. -/
inductive PubOutcome where
  | coded (code : String)
  | uncaught (e : PubExc)
deriving DecidableEq

/-- The `except` clauses of `publish` in `publish.py`: only `NoSuchProject`,
`PermissionDenied` and `MergeProposalExists` are converted to coded
`PublishFailure`s; anything else propagates. -/
def publishExcToOutcome : PubExc → PubOutcome
  | .noSuchProject => .coded "project-not-found"
  | .permissionDenied => .coded "permission-denied"
  | .mergeProposalExists => .coded "merge-proposal-exists"
  | .valueError => .uncaught .valueError

/-- `get_proposal_description` as defined inside `publish` in `publish.py`:
strip the blurb from any existing proposal description (raising `ValueError`
when it is absent), hand the result to the recipe's description merger
`subrunnerDesc`, and re-append the blurb. -/
def pubGetProposalDescription (suite pkg log_id : List Char)
    (subrunnerDesc : Option (List Char) → List Char)
    (existing : Option (List Char)) : Except PubExc (List Char) :=
  match existing with
  | none => .ok (add_janitor_blurb (subrunnerDesc none) pkg log_id suite)
  | some d =>
    match strip_janitor_blurb d suite with
    | some stripped =>
      .ok (add_janitor_blurb (subrunnerDesc (some stripped)) pkg log_id suite)
    | none => .error .valueError

/-! ## vcs.py — the local VCS store's branch-open operation -/

/-- Outcome of `silver_platter.utils.open_branch` on a URL. -/
inductive OpenBranchOutcome where
  | okBranch (b : String)
  | unavailable (msg : String)
  | missing (msg : String)
deriving DecidableEq

/-- The parts of the environment `get_local_vcs_branch` reads: directory
existence and branch opening. -/
structure VcsStoreEnv where
  pathExists : String → Bool
  openBranchAt : String → OpenBranchOutcome

/-- Python exceptions relevant to `LocalVcsManager.get_branch`. -/
inductive VcsExc where
  | typeError (msg : String)
  | branchUnavailable (msg : String)
  | branchMissing (msg : String)
deriving DecidableEq

/-- Positional-argument values of the Python calling convention. -/
inductive PyArg where
  | strArg (s : String)
  | optStrArg (s : Option String)
deriving DecidableEq

/-- `SUPPORTED_VCSES` from `vcs.py`. -/
def SUPPORTED_VCSES : List String := ["git", "bzr"]

/-- `get_local_vcs_branch_url(vcs_directory, vcs, pkg, branch_name)` from
`vcs.py` (`os.path.join` modelled as `/`-concatenation). -/
def get_local_vcs_branch_url (vcs_directory vcs pkg branch_name : String) :
    Option String :=
  if vcs = "git" then
    some ("file:" ++ vcs_directory ++ "/git/" ++ pkg ++ ",branch=" ++
          branch_name)
  else if vcs = "bzr" then
    some (vcs_directory ++ "/bzr/" ++ pkg ++ "/" ++ branch_name)
  else none

/-- Body of `get_local_vcs_branch(vcs_directory, pkg, branch_name)` from
`vcs.py`: probe for an existing per-VCS directory, build the branch URL and
open it; `open_branch` failures surface as exceptions. -/
def get_local_vcs_branch_body (env : VcsStoreEnv)
    (vcs_directory pkg branch_name : String) :
    Except VcsExc (Option String) :=
  match SUPPORTED_VCSES.find?
      (fun v => env.pathExists (vcs_directory ++ "/" ++ v ++ "/" ++ pkg)) with
  | none => .ok none
  | some vcs =>
    match get_local_vcs_branch_url vcs_directory vcs pkg branch_name with
    | none => .ok none
    | some url =>
      match env.openBranchAt url with
      | .okBranch b => .ok (some b)
      | .unavailable m => .error (.branchUnavailable m)
      | .missing m => .error (.branchMissing m)

/-- `get_local_vcs_branch` as a Python callable: it declares exactly three
positional parameters, so any other argument count raises `TypeError`. -/
def get_local_vcs_branch_apply (env : VcsStoreEnv) (args : List PyArg) :
    Except VcsExc (Option String) :=
  match args with
  | [.strArg d, .strArg p, .strArg b] => get_local_vcs_branch_body env d p b
  | _ =>
    .error (.typeError
      "get_local_vcs_branch() takes 3 positional arguments but 4 were given")

/-- `LocalVcsManager.get_branch(package, branch_name, vcs_type=None)` from
`vcs.py`: it calls `get_local_vcs_branch(self.base_path, package,
branch_name, vcs_type)` — four positional arguments — and converts only
`BranchUnavailable` and `BranchMissing` into `None`. -/
def LocalVcsManager_get_branch (env : VcsStoreEnv)
    (base_path package branch_name : String) (vcs_type : Option String) :
    Except VcsExc (Option String) :=
  match get_local_vcs_branch_apply env
      [.strArg base_path, .strArg package, .strArg branch_name,
       .optStrArg vcs_type] with
  | .error (.branchUnavailable _) => .ok none
  | .error (.branchMissing _) => .ok none
  | r => r

/-! ## worker.py — recipe-failure handling in `process_package` -/

/-- A coded `WorkerFailure` from `worker.py`. -/
structure WFail where
  code : String
  description : String
deriving DecidableEq

/-- One entry of `ChangerResult.branches`:
`(role, name, base_revision, revision)`. -/
structure BranchEntry where
  role : Option String
  name : Option String
  base_revision : Option String
  revision : String
deriving DecidableEq

/-- The `ChangerResult` record returned by a recipe in `worker.py`. -/
structure ChangerResult where
  description : String
  mutator : Option String
  branches : List BranchEntry
  tags : List (String × String)
  value : Nat
deriving DecidableEq

/-- The empty result `process_package` synthesises for a forced build:
`ChangerResult(description='No change build', mutator=None, branches=[],
tags={}, value=0)`. -/
def emptyChangerResult : ChangerResult :=
  { description := "No change build", mutator := none, branches := [],
    tags := [], value := 0 }

/-- The nulling in `process_package`: when the workspace discarded the
resume branch, the supplied subworker result is not passed to the recipe. -/
def effectiveResumeResult (resume_subworker_result : Option String)
    (ws_resume_branch_discarded : Bool) : Option String :=
  if ws_resume_branch_discarded then none else resume_subworker_result

/-- The `try/except WorkerFailure` around `build_target.make_changes` in
`process_package`: `nothing-to-do` is remapped to `nothing-new-to-do` when
an effective resume result is present, replaced by an empty synthesised
result when `force_build` is set, and re-raised otherwise. -/
def handleRecipeOutcome (resume_subworker_result : Option String)
    (ws_resume_branch_discarded force_build : Bool)
    (outcome : Except WFail ChangerResult) : Except WFail ChangerResult :=
  let rr := effectiveResumeResult resume_subworker_result
    ws_resume_branch_discarded
  match outcome with
  | .ok r => .ok r
  | .error e =>
    if e.code = "nothing-to-do" then
      match rr with
      | some _ => .error { code := "nothing-new-to-do",
                           description := e.description }
      | none =>
        if force_build then .ok emptyChangerResult else .error e
    else .error e

/-- The `should_build` computation in `process_package`: always build under
`force_build`; otherwise fail `nothing-to-do` on an empty branch list, else
build when some branch has role `None` or `'main'`. -/
def shouldBuildCheck (force_build : Bool) (r : ChangerResult) :
    Except WFail Bool :=
  if force_build then .ok true
  else if r.branches.isEmpty then
    .error { code := "nothing-to-do", description := "Nothing to do." }
  else
    .ok (r.branches.any (fun b => b.role == none || b.role == some "main"))

/-! ## worker.py — exception dispatch in `main` -/

/-- How control leaves the `try` in `main` after the `finally` upload:
`return 0`, re-raise the exception, or fall through the handler. -/
inductive ReturnBehavior where
  | returnZero
  | reraise
  | fallThrough
deriving DecidableEq

/-- What `main` records and does for one main-task outcome. -/
structure MainDisposition where
  metadata_code : Option String
  behavior : ReturnBehavior
  uploads_result : Bool
deriving DecidableEq

/-- How the awaited main task can terminate in `main`. -/
inductive MainTaskOutcome where
  | success
  | workerFailure (code description : String)
  | osError (errno : Nat) (msg : String)
  | otherException (msg : String)
deriving DecidableEq

/-- `errno.ENOSPC` on Linux. -/
def ENOSPC : Nat := 28

/-- The `except` chain around `await main_task` in `main` of `worker.py`:
`WorkerFailure` records its code and returns 0; `OSError` distinguishes
`ENOSPC` (recorded, not re-raised) from other errnos (`worker-exception`,
re-raised); any other exception is tagged `worker-failure` and re-raised.
The `finally` block uploads the result in every case. -/
def mainHandleOutcome : MainTaskOutcome → MainDisposition
  | .success =>
    { metadata_code := none, behavior := .returnZero, uploads_result := true }
  | .workerFailure c _ =>
    { metadata_code := some c, behavior := .returnZero,
      uploads_result := true }
  | .osError e _ =>
    if e = ENOSPC then
      { metadata_code := some "no-space-on-device",
        behavior := .fallThrough, uploads_result := true }
    else
      { metadata_code := some "worker-exception", behavior := .reraise,
        uploads_result := true }
  | .otherException _ =>
    { metadata_code := some "worker-failure", behavior := .reraise,
      uploads_result := true }

/-! ## worker.py — watchdog keepalive loop -/

/-- State of `WatchdogPetter` relevant to the keepalive loop: the
`_last_communication` timestamp (seconds) and the times at which keepalive
frames were sent. -/
structure WatchdogState where
  last_communication : Nat
  keepalives_sent : List Nat
deriving DecidableEq

/-- `WatchdogPetter.send_keepalive` from `worker.py`: when the websocket is
connected it sends the frame and returns `True`, else returns `False`.
The assignment to `_last_communication` in the source stands after both
`return` statements and never executes, so the state keeps its old
timestamp. -/
def send_keepalive (ws_connected : Bool) (now : Nat) (st : WatchdogState) :
    WatchdogState × Bool :=
  if ws_connected then
    ({ st with keepalives_sent := st.keepalives_sent ++ [now] }, true)
  else (st, false)

/-- One iteration of `WatchdogPetter._send_keepalives`, run after each 10 s
sleep: send a keepalive when strictly more than 60 seconds have passed since
`_last_communication`. -/
def keepalive_check (ws_connected : Bool) (now : Nat) (st : WatchdogState) :
    WatchdogState :=
  if 60 < now - st.last_communication then
    (send_keepalive ws_connected now st).1
  else st

/-- The keepalive loop over a list of wake-up times. -/
def run_keepalive_ticks (ws_connected : Bool) :
    List Nat → WatchdogState → WatchdogState
  | [], st => st
  | t :: rest, st =>
    run_keepalive_ticks ws_connected rest (keepalive_check ws_connected t st)

/-! ## Claim theorems -/

/-- Claim C1: for a `MaintainerRateLimiter` constructed with a positive cap,
`allowed` returns false for every maintainer while
`set_open_mps_per_maintainer` has not been called (and `inc` keeps the map
uninitialised); once it has been called, `allowed(m)` holds exactly when the
stored count for `m` (0 when absent) is strictly below the cap. -/
theorem rate_limiter_allowed_spec (cap : Nat) (hcap : 0 < cap)
    (m : String) :
    MaintainerRateLimiter.allowed ⟨some cap, none⟩ m = false ∧
    (∀ m2 : String,
      (MaintainerRateLimiter.inc ⟨some cap, none⟩ m2) = ⟨some cap, none⟩) ∧
    (∀ (st : Option (List (String × Nat))) (mp : List (String × Nat)),
      MaintainerRateLimiter.allowed
          (MaintainerRateLimiter.set_open_mps_per_maintainer
            ⟨some cap, st⟩ mp) m
        = decide (lookup0 mp m < cap)) := by
  have hne : cap ≠ 0 := Nat.pos_iff_ne_zero.mp hcap
  refine ⟨?_, ?_, ?_⟩
  · simp [MaintainerRateLimiter.allowed, hne]
  · intro m2
    rfl
  · intro st mp
    simp [MaintainerRateLimiter.allowed,
      MaintainerRateLimiter.set_open_mps_per_maintainer, hne]

/-- Witness for `rate_limiter_allowed_spec` at cap 2 and maintainer `"a"`. -/
theorem rate_limiter_allowed_spec_witness :
    MaintainerRateLimiter.allowed ⟨some 2, none⟩ "a" = false ∧
    (∀ m2 : String,
      (MaintainerRateLimiter.inc ⟨some 2, none⟩ m2) = ⟨some 2, none⟩) ∧
    (∀ (st : Option (List (String × Nat))) (mp : List (String × Nat)),
      MaintainerRateLimiter.allowed
          (MaintainerRateLimiter.set_open_mps_per_maintainer
            ⟨some 2, st⟩ mp) "a"
        = decide (lookup0 mp "a" < 2)) :=
  rate_limiter_allowed_spec 2 (by decide) "a"

/-- Claim C2: in `publish_pending_new`, a rate-limited run with policy mode
`propose` is skipped (no `publish_one` hoster call, no `store_publish`
Publication row), and a rate-limited run with policy mode `attempt-push`
that is not already published is handed to `publish_one` with mode
`push`. -/
theorem rate_limited_downgrade (already_published : Bool)
    (url url2 : List Char) :
    publish_pending_decision .propose already_published false url
      = .skipRun ∧
    publish_pending_decision .attemptPush false false url2
      = .publishWith .push := by
  constructor
  · cases already_published <;> simp [publish_pending_decision]
  · simp [publish_pending_decision]

/-- Claim C3 (refuted): in `publish_pending_new` the rate-limit downgrade
`attempt-push → push` runs before the `salsa.debian.org/debian/` override,
so a rate-limited run with policy `attempt-push` on a
`salsa.debian.org/debian/` main branch is published with a direct `push`,
not with `propose`. -/
theorem salsa_attempt_push_rate_limited_still_pushes :
    containsSub SALSA_DEBIAN
        ("https://salsa.debian.org/debian/python-foo".toList) = true ∧
    publish_pending_decision .attemptPush false false
        ("https://salsa.debian.org/debian/python-foo".toList)
      = .publishWith .push ∧
    PMode.push ≠ PMode.propose := by
  refine ⟨by decide, ?_, by decide⟩
  simp [publish_pending_decision]

/-- Claim C5 (code evaluation): `LocalVcsManager.get_branch` passes four
positional arguments to the three-parameter `get_local_vcs_branch`, so every
call raises `TypeError` — it never returns a branch or `None`. -/
theorem local_get_branch_always_raises (env : VcsStoreEnv)
    (base_path package branch_name : String) (vcs_type : Option String) :
    LocalVcsManager_get_branch env base_path package branch_name vcs_type
      = .error (.typeError
        "get_local_vcs_branch() takes 3 positional arguments but 4 were given")
    := rfl

/-- Claim C8 (counterexample): on a rate limiter whose map is uninitialised,
`inc` does not create an entry with count 1 — it is a no-op, so no stored
count for the maintainer exists afterwards. -/
theorem inc_uninitialised_counterexample :
    (MaintainerRateLimiter.inc ⟨some 1, none⟩ "a").open_mps_per_maintainer
      = none ∧
    ¬ (∃ mp, (MaintainerRateLimiter.inc
        ⟨some 1, none⟩ "a").open_mps_per_maintainer = some mp ∧
        lookup0 mp "a" = 1) := by
  constructor
  · rfl
  · rintro ⟨mp, hmp, _⟩
    simp [MaintainerRateLimiter.inc] at hmp

/-- Claim C8 (amended): once the map is initialised, `inc(m)` bumps the
stored count for `m` by exactly one (creating the entry at 1 when `m` was
absent); while the map is uninitialised, `inc` is a no-op. -/
theorem inc_bumps_when_initialised :
    (∀ (cap : Option Nat) (mp : List (String × Nat)) (m : String),
      MaintainerRateLimiter.inc ⟨cap, some mp⟩ m = ⟨cap, some (bump mp m)⟩) ∧
    (∀ (mp : List (String × Nat)) (m : String),
      lookup0 (bump mp m) m = lookup0 mp m + 1) ∧
    (∀ (cap : Option Nat) (m : String),
      MaintainerRateLimiter.inc ⟨cap, none⟩ m = ⟨cap, none⟩) := by
  refine ⟨fun _ _ _ => rfl, ?_, fun _ _ => rfl⟩
  intro mp m
  induction mp with
  | nil => simp [bump, lookup0]
  | cons hd tl ih =>
    obtain ⟨a, n⟩ := hd
    by_cases h : a = m
    · simp [bump, lookup0, h]
    · simp [bump, lookup0, h, ih]

/-- Claim C6 (counterexample): resume metadata was supplied for the run, but
the workspace discarded the resume branch, so `process_package` nulls the
supplied result and the recipe's `nothing-to-do` failure is reported as
`nothing-to-do`, not as `nothing-new-to-do`. -/
theorem nothing_to_do_resume_discarded_counterexample :
    handleRecipeOutcome (some "prior-result") true false
        (.error { code := "nothing-to-do", description := "d" })
      = .error { code := "nothing-to-do", description := "d" } ∧
    ("nothing-to-do" : String) ≠ "nothing-new-to-do" :=
  ⟨rfl, by decide⟩

/-- Claim C6 (amended): if the recipe fails with `nothing-to-do` and resume
metadata was supplied and the workspace kept the resume branch, the failure
is reported as `nothing-new-to-do`; if the effective resume metadata is
absent (none supplied, or the resume branch was discarded) and `force_build`
is set, the empty `ChangerResult` (no branches, value 0) is synthesised and
the build step still runs. -/
theorem nothing_to_do_remap_amended :
    (∀ (r d : String) (fb : Bool),
      handleRecipeOutcome (some r) false fb
          (.error { code := "nothing-to-do", description := d })
        = .error { code := "nothing-new-to-do", description := d }) ∧
    (∀ (ro : Option String) (d : String),
      handleRecipeOutcome ro true true
          (.error { code := "nothing-to-do", description := d })
        = .ok emptyChangerResult) ∧
    (∀ d : String,
      handleRecipeOutcome none false true
          (.error { code := "nothing-to-do", description := d })
        = .ok emptyChangerResult) ∧
    emptyChangerResult.branches = [] ∧
    emptyChangerResult.value = 0 ∧
    shouldBuildCheck true emptyChangerResult = .ok true := by
  refine ⟨?_, ?_, ?_, rfl, rfl, rfl⟩
  · intro r d fb
    simp [handleRecipeOutcome, effectiveResumeResult]
  · intro ro d
    simp [handleRecipeOutcome, effectiveResumeResult]
  · intro d
    simp [handleRecipeOutcome, effectiveResumeResult]

/-- Claim C7 (counterexample): an `OSError` with `errno = ENOSPC` is an
uncoded exception, yet `main` tags it `no-space-on-device` — not
`worker-failure` — and does not re-raise it. -/
theorem enospc_counterexample :
    mainHandleOutcome (.osError 28 "No space left on device")
      = { metadata_code := some "no-space-on-device",
          behavior := .fallThrough, uploads_result := true } ∧
    (some "no-space-on-device" : Option String) ≠ some "worker-failure" ∧
    ReturnBehavior.fallThrough ≠ ReturnBehavior.reraise :=
  ⟨rfl, by decide, by decide⟩

/-- Claim C7 (amended): a coded `WorkerFailure` has its code recorded in the
uploaded result and `main` returns 0; an uncoded exception other than
`OSError` is tagged `worker-failure` and re-raised after the `finally`
upload; an `OSError` is tagged `no-space-on-device` (ENOSPC, not re-raised)
or `worker-exception` (other errnos, re-raised). The `finally` upload runs
in every case. -/
theorem main_exception_dispatch_amended :
    (∀ c d : String,
      mainHandleOutcome (.workerFailure c d)
        = { metadata_code := some c, behavior := .returnZero,
            uploads_result := true }) ∧
    (∀ m : String,
      mainHandleOutcome (.otherException m)
        = { metadata_code := some "worker-failure", behavior := .reraise,
            uploads_result := true }) ∧
    (∀ m : String,
      mainHandleOutcome (.osError ENOSPC m)
        = { metadata_code := some "no-space-on-device",
            behavior := .fallThrough, uploads_result := true }) ∧
    (∀ (e : Nat) (m : String), e ≠ ENOSPC →
      mainHandleOutcome (.osError e m)
        = { metadata_code := some "worker-exception", behavior := .reraise,
            uploads_result := true }) := by
  refine ⟨fun _ _ => rfl, fun _ => rfl, fun _ => rfl, ?_⟩
  intro e m h
  simp [mainHandleOutcome, h]

/-- Witness for `main_exception_dispatch_amended` at errno 13 (EACCES). -/
theorem main_exception_dispatch_amended_witness :
    mainHandleOutcome (.osError 13 "Permission denied")
      = { metadata_code := some "worker-exception", behavior := .reraise,
          uploads_result := true } :=
  main_exception_dispatch_amended.2.2.2 13 "Permission denied" (by decide)

/-- Claim C9 (code evaluation): with the websocket connected and no other
frames after time 0, the keepalive loop sends keepalive frames at 70 s and
80 s — only 10 seconds apart — because `send_keepalive` never reaches its
update of `_last_communication` (the assignment stands after both `return`
statements). -/
theorem keepalive_every_ten_seconds :
    (run_keepalive_ticks true [10, 20, 30, 40, 50, 60, 70, 80]
        { last_communication := 0, keepalives_sent := [] }).keepalives_sent
      = [70, 80] ∧
    80 - 70 < 60 :=
  ⟨rfl, by decide⟩

/-- Claim C4 (counterexample): for `t = " x"`, which does not contain the
blurb, the round trip returns `"x"` — `str.strip()` in
`strip_janitor_blurb` also removes whitespace that belonged to `t`. -/
theorem strip_add_roundtrip_counterexample :
    strip_janitor_blurb
        (add_janitor_blurb (" x".toList) ("pkg".toList) ("lid".toList)
          ("lintian-fixes".toList)) ("lintian-fixes".toList)
      = some ("x".toList) ∧
    some ("x".toList) ≠ some (" x".toList) :=
  ⟨by decide, by decide⟩

/-- Claim C4 (amended): when the suite blurb occurs in the augmented text
only as the appended copy (in particular `t` does not contain it),
`strip_janitor_blurb(add_janitor_blurb(t, p, l, s), s)` equals `t` with
leading and trailing whitespace stripped — and hence equals `t` whenever
`t` carries no leading or trailing whitespace. -/
theorem strip_add_roundtrip_amended (t pkg log_id suite : List Char)
    (hno : ∀ j, j < t.length + 1 →
      (JANITOR_BLURB suite).isPrefixOf
        ((add_janitor_blurb t pkg log_id suite).drop j) = false) :
    strip_janitor_blurb (add_janitor_blurb t pkg log_id suite) suite
      = some (pyStrip t) := by
  have hnl : ("\n".toList : List Char) = ['\n'] := rfl
  have hre : add_janitor_blurb t pkg log_id suite
      = (t ++ ['\n']) ++ (JANITOR_BLURB suite ++ LOG_BLURB pkg log_id) := by
    simp [add_janitor_blurb, hnl, List.append_assoc]
  have hlen : (t ++ ['\n']).length = t.length + 1 := by simp
  have hat : (JANITOR_BLURB suite).isPrefixOf
      ((add_janitor_blurb t pkg log_id suite).drop (t.length + 1)) = true := by
    rw [hre, ← hlen, drop_len_append]
    exact isPrefixOf_append_self _ _
  have hidx : strIndex (JANITOR_BLURB suite)
      (add_janitor_blurb t pkg log_id suite) = some (t.length + 1) :=
    strIndex_eq_some _ _ _ hno hat
  have htake : (add_janitor_blurb t pkg log_id suite).take (t.length + 1)
      = t ++ ['\n'] := by
    rw [hre, ← hlen, take_len_append]
  simp only [strip_janitor_blurb, hidx]
  rw [htake, pyStrip_append_newline]

/-- Witness for `strip_add_roundtrip_amended` at `t = "x"`. -/
theorem strip_add_roundtrip_amended_witness :
    strip_janitor_blurb
        (add_janitor_blurb ("x".toList) ("p1".toList) ("l1".toList)
          ("s1".toList)) ("s1".toList)
      = some ("x".toList) := by
  have h := strip_add_roundtrip_amended ("x".toList) ("p1".toList)
    ("l1".toList) ("s1".toList) (by decide)
  rw [h]
  decide

/-- Claim C10: on a text containing neither the suite blurb nor the old
blurb, `strip_janitor_blurb` raises `ValueError`; inside `publish`,
`get_proposal_description` therefore raises on an existing proposal whose
description is not the janitor's, and `publish` converts only
`NoSuchProject`, `PermissionDenied` and `MergeProposalExists` to coded
`PublishFailure`s, so the `ValueError` escapes uncoded. -/
theorem strip_blurb_value_error_uncoded (text suite pkg log_id : List Char)
    (f : Option (List Char) → List Char)
    (h1 : strIndex (JANITOR_BLURB suite) text = none)
    (h2 : strIndex OLD_JANITOR_BLURB text = none) :
    strip_janitor_blurb text suite = none ∧
    pubGetProposalDescription suite pkg log_id f (some text)
      = .error .valueError ∧
    publishExcToOutcome .valueError = .uncaught .valueError := by
  have hs : strip_janitor_blurb text suite = none := by
    simp only [strip_janitor_blurb, h1, h2]
  exact ⟨hs, by simp only [pubGetProposalDescription, hs], rfl⟩

/-- Witness for `strip_blurb_value_error_uncoded` on a human-written
description. -/
theorem strip_blurb_value_error_uncoded_witness :
    strip_janitor_blurb ("Please merge this.".toList) ("s1".toList)
      = none ∧
    pubGetProposalDescription ("s1".toList) ("p1".toList) ("l1".toList)
        (fun _ => []) (some ("Please merge this.".toList))
      = .error .valueError ∧
    publishExcToOutcome .valueError = .uncaught .valueError :=
  strip_blurb_value_error_uncoded ("Please merge this.".toList)
    ("s1".toList) ("p1".toList) ("l1".toList) (fun _ => [])
    (by decide) (by decide)

end Janitor
